import Mathlib

/-!
# Verification of the aragog query builder

A shallow embedding of the aragog query-builder core: the `Comparison`
predicate model (`src/query/comparison.rs`), the boolean `Filter` chain, the
traversal-aware `Query` tree with its depth-based variable naming and AQL
renderer, the `QueryResult` projections (`src/query/query_result.rs`), the
batched `QueryCursor` state machine, and the `ArangoHttpError` code mapping
(`src/error/arango_http_error.rs`).

The `Query`, `Filter` and `QueryCursor` implementations are not part of the
source snapshot (only `tests/query.rs` exercises them), so they are modelled
from the specification and pinned to the exact strings the repository's test
suite asserts.
-/

namespace Aragog

/-- Embeds `Comparison` from `src/query/comparison.rs`: `is_field`,
`left_value`, `comparator`, `right_value`, all strings fixed at build time. -/
structure Comparison where
  is_field : Bool
  left_value : String
  comparator : String
  right_value : String
deriving Repr, DecidableEq

/-- Embeds `ComparisonBuilder` from `src/query/comparison.rs`: the left-hand
side (`statement`) plus the `is_field` flag, awaiting a terminal method. -/
structure ComparisonBuilder where
  is_field : Bool
  statement : String
deriving Repr, DecidableEq

/-- `Comparison::field`: left side is a document field, `is_field = true`. -/
def Comparison.field (field_name : String) : ComparisonBuilder :=
  { is_field := true, statement := field_name }

/-- `Comparison::all`: array quantifier, appends " ALL" to the field name. -/
def Comparison.all (array_field_name : String) : ComparisonBuilder :=
  { is_field := true, statement := array_field_name ++ " ALL" }

/-- `Comparison::none`: array quantifier, appends " NONE" to the field name. -/
def Comparison.none (array_field_name : String) : ComparisonBuilder :=
  { is_field := true, statement := array_field_name ++ " NONE" }

/-- `Comparison::any`: array quantifier, appends " ANY" to the field name. -/
def Comparison.any (array_field_name : String) : ComparisonBuilder :=
  { is_field := true, statement := array_field_name ++ " ANY" }

/-- `Comparison::statement`: arbitrary left-hand expression, `is_field = false`. -/
def Comparison.statement (statement : String) : ComparisonBuilder :=
  { is_field := false, statement := statement }

/-- `ComparisonBuilder::equals_str`: `==` with the right value quoted. -/
def ComparisonBuilder.equals_str (b : ComparisonBuilder) (value : String) : Comparison :=
  { is_field := b.is_field, left_value := b.statement, comparator := "==",
    right_value := "\"" ++ value ++ "\"" }

/-- `ComparisonBuilder::different_than_str`: `!=` with the right value quoted. -/
def ComparisonBuilder.different_than_str (b : ComparisonBuilder) (value : String) : Comparison :=
  { is_field := b.is_field, left_value := b.statement, comparator := "!=",
    right_value := "\"" ++ value ++ "\"" }

/-- `ComparisonBuilder::like`: `LIKE` with the pattern quoted. -/
def ComparisonBuilder.like (b : ComparisonBuilder) (pattern : String) : Comparison :=
  { is_field := b.is_field, left_value := b.statement, comparator := "LIKE",
    right_value := "\"" ++ pattern ++ "\"" }

/-- `ComparisonBuilder::not_like`: `NOT LIKE` with the pattern quoted. -/
def ComparisonBuilder.not_like (b : ComparisonBuilder) (pattern : String) : Comparison :=
  { is_field := b.is_field, left_value := b.statement, comparator := "NOT LIKE",
    right_value := "\"" ++ pattern ++ "\"" }

/-- `ComparisonBuilder::matches`: `=~` with the regular expression quoted. -/
def ComparisonBuilder.matches (b : ComparisonBuilder) (regular_expression : String) : Comparison :=
  { is_field := b.is_field, left_value := b.statement, comparator := "=~",
    right_value := "\"" ++ regular_expression ++ "\"" }

/-- `ComparisonBuilder::does_not_match`: `!~` with the regular expression quoted. -/
def ComparisonBuilder.does_not_match (b : ComparisonBuilder) (regular_expression : String) :
    Comparison :=
  { is_field := b.is_field, left_value := b.statement, comparator := "!~",
    right_value := "\"" ++ regular_expression ++ "\"" }

/-- `ComparisonBuilder::equals` (`T: Display` numeric use): `==`, right value
rendered bare. The shallow embedding fixes the `Display` argument to `Int`. -/
def ComparisonBuilder.equals (b : ComparisonBuilder) (value : Int) : Comparison :=
  { is_field := b.is_field, left_value := b.statement, comparator := "==",
    right_value := toString value }

/-- `ComparisonBuilder::different_than`: `!=`, right value rendered bare. -/
def ComparisonBuilder.different_than (b : ComparisonBuilder) (value : Int) : Comparison :=
  { is_field := b.is_field, left_value := b.statement, comparator := "!=",
    right_value := toString value }

/-- `ComparisonBuilder::greater_than` (`T: Num + Display`): `>`. -/
def ComparisonBuilder.greater_than (b : ComparisonBuilder) (value : Int) : Comparison :=
  { is_field := b.is_field, left_value := b.statement, comparator := ">",
    right_value := toString value }

/-- `ComparisonBuilder::greater_or_equal`: `>=`. -/
def ComparisonBuilder.greater_or_equal (b : ComparisonBuilder) (value : Int) : Comparison :=
  { is_field := b.is_field, left_value := b.statement, comparator := ">=",
    right_value := toString value }

/-- `ComparisonBuilder::lesser_than`: `<`. -/
def ComparisonBuilder.lesser_than (b : ComparisonBuilder) (value : Int) : Comparison :=
  { is_field := b.is_field, left_value := b.statement, comparator := "<",
    right_value := toString value }

/-- `ComparisonBuilder::lesser_or_equal`: `<=`. -/
def ComparisonBuilder.lesser_or_equal (b : ComparisonBuilder) (value : Int) : Comparison :=
  { is_field := b.is_field, left_value := b.statement, comparator := "<=",
    right_value := toString value }

/-- `ComparisonBuilder::eq_null`: `== null`. -/
def ComparisonBuilder.eq_null (b : ComparisonBuilder) : Comparison :=
  { is_field := b.is_field, left_value := b.statement, comparator := "==",
    right_value := "null" }

/-- `ComparisonBuilder::not_null`: `!= null`. -/
def ComparisonBuilder.not_null (b : ComparisonBuilder) : Comparison :=
  { is_field := b.is_field, left_value := b.statement, comparator := "!=",
    right_value := "null" }

/-- `ComparisonBuilder::eq_true`: `== true`. -/
def ComparisonBuilder.eq_true (b : ComparisonBuilder) : Comparison :=
  { is_field := b.is_field, left_value := b.statement, comparator := "==",
    right_value := "true" }

/-- `ComparisonBuilder::eq_false`: `== false`. -/
def ComparisonBuilder.eq_false (b : ComparisonBuilder) : Comparison :=
  { is_field := b.is_field, left_value := b.statement, comparator := "==",
    right_value := "false" }

/-- `Comparison::aql_str` from `src/query/comparison.rs` lines 886-896:
`format!("{}{} {} {}", id, left_value, comparator, right_value)` where `id`
is `"<collection_id>."` when `is_field` and the empty string otherwise. -/
def Comparison.aql_str (c : Comparison) (collection_id : String) : String :=
  (if c.is_field then collection_id ++ "." else "") ++
    c.left_value ++ " " ++ c.comparator ++ " " ++ c.right_value

/-- Modelled from the spec: the `Filter` connector (`AND`/`OR`) of §3; the
`Filter` implementation itself is not in the source snapshot. -/
inductive Connector where
  | and
  | or
deriving Repr, DecidableEq

/-- Modelled from the spec: `Filter` (§3) — "an ordered sequence of
`(Comparison, Connector)` pairs where the first pair's connector is absent
(none) and every subsequent pair carries `AND` or `OR`"; the implementation
file is missing from the source snapshot. -/
structure Filter where
  comparisons : List (Option Connector × Comparison)
deriving Repr, DecidableEq

/-- Modelled from the spec: `Filter::new` lifts one `Comparison` into a
one-element chain whose connector is absent. -/
def Filter.new (comparison : Comparison) : Filter :=
  { comparisons := [(Option.none, comparison)] }

/-- Modelled from the spec: `Filter::and` appends a comparison with the `AND`
connector (§3: "mutated only by `and`/`or` combinators which append"). -/
def Filter.and (f : Filter) (comparison : Comparison) : Filter :=
  { comparisons := f.comparisons ++ [(some Connector.and, comparison)] }

/-- Modelled from the spec: `Filter::or` appends a comparison with the `OR`
connector. -/
def Filter.or (f : Filter) (comparison : Comparison) : Filter :=
  { comparisons := f.comparisons ++ [(some Connector.or, comparison)] }

/-- Modelled from the spec: the textual connector separating two chained
comparisons (`" && "` / `" || "`), absent before the first one. -/
def connectorText : Option Connector → String
  | Option.none => ""
  | some Connector.and => " && "
  | some Connector.or => " || "

/-- Modelled from the spec: `Filter::aql_str(bind_var)` (§4.1) concatenates
the rendered comparisons separated by the connector keyword, preserving
insertion order exactly; pinned by `tests/query.rs::filter`. -/
def Filter.aql_str (f : Filter) (collection_id : String) : String :=
  f.comparisons.foldl
    (fun acc entry => acc ++ connectorText entry.1 ++ entry.2.aql_str collection_id) ""

/-- `Comparison::and` from `src/query/comparison.rs` lines 836-840:
`Filter::new(self).and(comparison)`. -/
def Comparison.and (c : Comparison) (comparison : Comparison) : Filter :=
  (Filter.new c).and comparison

/-- `Comparison::or` from `src/query/comparison.rs` lines 851-855:
`Filter::new(self).or(comparison)`. -/
def Comparison.or (c : Comparison) (comparison : Comparison) : Filter :=
  (Filter.new c).or comparison

-- Sanity checks against `tests/query.rs::comparison` and `::filter`.
example : ((Comparison.field "age").greater_than 10).aql_str "i" = "i.age > 10" := rfl
example : ((Comparison.field "name").equals_str "felix").aql_str "i" = "i.name == \"felix\"" := rfl
example : ((Comparison.all "emails").not_null).aql_str "i" = "i.emails ALL != null" := rfl
example : ((Comparison.any "authorizations").eq_true).aql_str "i" =
    "i.authorizations ANY == true" := rfl
example : ((Comparison.none "emails").eq_null).aql_str "i" = "i.emails NONE == null" := rfl
example :
    ((Filter.new ((Comparison.field "username").equals_str "felix")).and
      ((Comparison.field "age").greater_than 15)).aql_str "i" =
    "i.username == \"felix\" && i.age > 15" := rfl
example :
    ((Filter.new ((Comparison.field "company_name").not_like "%google%")).and
      ((Comparison.field "company_age").greater_than 15)
      |>.or ((Comparison.any "emails").like "%gmail.com")
      |>.and ((Comparison.field "roles").equals_str "SHIPPER")).aql_str "i" =
    "i.company_name NOT LIKE \"%google%\" && i.company_age > 15 || " ++
      "i.emails ANY LIKE \"%gmail.com\" && i.roles == \"SHIPPER\"" := rfl

/-- Modelled from the spec: `SortDirection` (§3 `{Asc, Desc}`); the `Query`
implementation file is missing from the source snapshot. -/
inductive SortDirection where
  | asc
  | desc
deriving Repr, DecidableEq

/-- Modelled from the spec: textual form of a sort direction (§4.2 `ASC`/`DESC`). -/
def SortDirection.render : SortDirection → String
  | .asc => "ASC"
  | .desc => "DESC"

/-- Embeds `GraphQueryDirection` from `src/query/graph_query.rs`. -/
inductive GraphQueryDirection where
  | outbound
  | inbound
  | any
deriving Repr, DecidableEq

/-- `Display for GraphQueryDirection` from `src/query/graph_query.rs`. -/
def GraphQueryDirection.render : GraphQueryDirection → String
  | .outbound => "OUTBOUND"
  | .inbound => "INBOUND"
  | .any => "ANY"

/-- Embeds `GraphQueryData` from `src/query/graph_query.rs` (the `start_vertex`
field serves the vertex-anchored constructors `Query::outbound`/`inbound`,
which no claim exercises; joined sub-queries use the parent iteration variable
as start vertex per spec §4.2, so the field is left out of the model). -/
structure GraphQueryData where
  direction : GraphQueryDirection
  min : Nat
  max : Nat
  named_graph : Bool
deriving Repr, DecidableEq

/-- Modelled from the spec: one recorded builder operation of a `Query` node.
The `Query` implementation is missing from the source snapshot; the
repository's test `tests/query.rs::order_of_operations_works` pins the clause
order to the builder-call order, so the node keeps its operations as an
ordered list rather than as the per-kind fields of spec §3. -/
inductive AqlOperation where
  | filter (f : Filter)
  | sort (field : String) (direction : SortDirection)
  | limit (skip : Option Nat) (count : Nat)
  | prune (f : Filter)
deriving Repr, DecidableEq

/-- Modelled from the spec: the `Query` tree (§3) — source collection, recorded
operations, `distinct` flag and an optional nested traversal
(`subquery: Option<(GraphTraversalSpec, Box<Query>)>`); the `Option`-of-pair
is flattened into the `leaf`/`node` constructors so that every recursion is
structural. -/
inductive Query where
  | leaf (collection : String) (operations : List AqlOperation) (distinct : Bool)
  | node (collection : String) (operations : List AqlOperation) (distinct : Bool)
      (graph_data : GraphQueryData) (child : Query)
deriving Repr, DecidableEq

/-- Modelled from the spec: `Query::new(collection)` — no operations, not
distinct, no sub-query. -/
def Query.new (collection : String) : Query := .leaf collection [] false

/-- The node's source collection name. -/
def Query.collection : Query → String
  | .leaf c _ _ => c
  | .node c _ _ _ _ => c

/-- The node's recorded operations, in builder-call order. -/
def Query.operations : Query → List AqlOperation
  | .leaf _ ops _ => ops
  | .node _ ops _ _ _ => ops

/-- Appends one operation to the node's list, keeping everything else. -/
def Query.pushOp (q : Query) (op : AqlOperation) : Query :=
  match q with
  | .leaf c ops d => .leaf c (ops ++ [op]) d
  | .node c ops d gd child => .node c (ops ++ [op]) d gd child

/-- Modelled from the spec: `Query::filter` records a `FILTER` operation. -/
def Query.filter (q : Query) (f : Filter) : Query := q.pushOp (.filter f)

/-- Modelled from the spec: `Query::prune` records a `PRUNE` operation. -/
def Query.prune (q : Query) (f : Filter) : Query := q.pushOp (.prune f)

/-- Modelled from the spec: `Query::sort(field, direction)` records a `SORT`
operation; a missing direction defaults to ascending (§4.2). -/
def Query.sort (q : Query) (field : String) (direction : Option SortDirection) : Query :=
  q.pushOp (.sort field (direction.getD .asc))

/-- Modelled from the spec: `Query::limit(count, skip)` records a `LIMIT`
operation. -/
def Query.limit (q : Query) (count : Nat) (skip : Option Nat) : Query :=
  q.pushOp (.limit skip count)

/-- Modelled from the spec: `Query::distinct` sets the node's distinct flag. -/
def Query.distinct : Query → Query
  | .leaf c ops _ => .leaf c ops true
  | .node c ops _ gd child => .node c ops true gd child

/-- Modelled from the spec: the common part of `Query::join_inbound` /
`join_outbound` — attach `query` as the nested traversal of `self`. -/
def Query.join (q : Query) (direction : GraphQueryDirection) (min max : Nat)
    (named_graph : Bool) (query : Query) : Query :=
  match q with
  | .leaf c ops d => .node c ops d ⟨direction, min, max, named_graph⟩ query
  | .node c ops d _ _ => .node c ops d ⟨direction, min, max, named_graph⟩ query

/-- Modelled from the spec: `Query::join_outbound(min, max, named_graph, query)`. -/
def Query.join_outbound (q : Query) (min max : Nat) (named_graph : Bool)
    (query : Query) : Query :=
  q.join .outbound min max named_graph query

/-- Modelled from the spec: `Query::join_inbound(min, max, named_graph, query)`. -/
def Query.join_inbound (q : Query) (min max : Nat) (named_graph : Bool)
    (query : Query) : Query :=
  q.join .inbound min max named_graph query

/-- Number of nested children below the node: spec §4.2 depth pass,
`depth(root) = 0` counting downward means the root of a chain of total depth
`D` has `subDepth = D`. -/
def Query.subDepth : Query → Nat
  | .leaf _ _ _ => 0
  | .node _ _ _ _ child => child.subDepth + 1

/-- Spec §4.2 naming pass: the node at distance `k` from the innermost node
gets the `(k+1)`-th lowercase letter — `varName 0 = "a"`. -/
def varName (k : Nat) : String := String.singleton (Char.ofNat (97 + k))

/-- The `distinct` flags of the chain, root first. -/
def Query.distinctFlags : Query → List Bool
  | .leaf _ _ d => [d]
  | .node _ _ d _ child => d :: child.distinctFlags

/-- Spec §4.2: `DISTINCT` is present iff any node's `distinct` flag was set. -/
def Query.anyDistinct : Query → Bool
  | .leaf _ _ d => d
  | .node _ _ d _ child => d || child.anyDistinct

/-- Modelled from the spec: renders the recorded operations of one node bound
to variable `v`, in list order, each clause prefixed by one space; the flag
carries whether the previous operation was a `SORT`, in which case a further
`SORT` merges into the same clause with `", "`
(`tests/query.rs::complex_query_works` pins the merged form). -/
def renderOps : List AqlOperation → String → Bool → String
  | [], _, _ => ""
  | .filter f :: rest, v, _ => " FILTER " ++ f.aql_str v ++ renderOps rest v false
  | .prune f :: rest, v, _ => " PRUNE " ++ f.aql_str v ++ renderOps rest v false
  | .limit skip count :: rest, v, _ =>
      " LIMIT " ++ (match skip with | some s => toString s ++ ", " | Option.none => "") ++
        toString count ++ renderOps rest v false
  | .sort field direction :: rest, v, wasSort =>
      (if wasSort then ", " else " SORT ") ++ v ++ "." ++ field ++ " " ++ direction.render ++
        renderOps rest v true

/-- Modelled from the spec: everything a node emits after its own `FOR` head —
its operations bound to its own variable `varName q.subDepth`, then, if a
nested traversal exists, the child's
`FOR <childVar> in <min>..<max> <DIRECTION> <parentVar> [GRAPH ]<collection>`
clause followed by the child's own tail (§4.2 emission step 3). -/
def Query.renderTail : Query → String
  | .leaf _ ops _ => renderOps ops (varName 0) false
  | .node _ ops _ gd child =>
      renderOps ops (varName (child.subDepth + 1)) false ++
        " FOR " ++ varName child.subDepth ++ " in " ++
        toString gd.min ++ ".." ++ toString gd.max ++ " " ++ gd.direction.render ++ " " ++
        varName (child.subDepth + 1) ++ " " ++
        (if gd.named_graph then "GRAPH " else "") ++ child.collection ++
        child.renderTail

/-- Modelled from the spec: `Query::aql_str` (§4.2) — the root `FOR` head, the
chain's clauses, and the terminating
`return [DISTINCT] <innermost var>`; pinned by the statement strings of
`tests/query.rs::query`. -/
def Query.aql_str (q : Query) : String :=
  "FOR " ++ varName q.subDepth ++ " in " ++ q.collection ++ q.renderTail ++
    " return " ++ (if q.anyDistinct then "DISTINCT " else "") ++ varName 0

-- Sanity checks: the exact statements asserted by `tests/query.rs::query`.
example : (Query.new "Companies").aql_str = "FOR a in Companies return a" := rfl

example :
    (Query.new "Companies"
      |>.filter (Filter.new ((Comparison.any "emails").like "%gmail.com"))
      |>.sort "company_name" Option.none
      |>.join_outbound 1 2 false
        (Query.new "MemberOf"
          |>.sort "_id" Option.none
          |>.prune (Filter.new ((Comparison.statement "1").equals 1)))).aql_str =
    "FOR b in Companies FILTER b.emails ANY LIKE \"%gmail.com\" SORT b.company_name ASC" ++
      " FOR a in 1..2 OUTBOUND b MemberOf SORT a._id ASC PRUNE 1 == 1 return a" := rfl

example :
    (Query.new "Companies"
      |>.filter (Filter.new ((Comparison.any "emails").like "%gmail.com"))
      |>.sort "company_name" Option.none
      |>.join_outbound 1 2 false
        (Query.new "MemberOf"
          |>.sort "_id" Option.none
          |>.filter (Filter.new ((Comparison.statement "1").equals 1))
          |>.join_inbound 1 5 false
            (Query.new "BelongsTo"
              |>.join_outbound 2 2 false (Query.new "HasFriend")))).aql_str =
    "FOR d in Companies FILTER d.emails ANY LIKE \"%gmail.com\" SORT d.company_name ASC" ++
      " FOR c in 1..2 OUTBOUND d MemberOf SORT c._id ASC FILTER 1 == 1" ++
      " FOR b in 1..5 INBOUND c BelongsTo FOR a in 2..2 OUTBOUND b HasFriend return a" := rfl

example :
    (Query.new "Companies"
      |>.filter (Filter.new ((Comparison.any "emails").like "%gmail.com"))
      |>.sort "company_name" Option.none
      |>.join_outbound 1 2 true
        (Query.new "GraphName"
          |>.sort "_id" Option.none
          |>.prune (Filter.new ((Comparison.statement "1").equals 1)))).aql_str =
    "FOR b in Companies FILTER b.emails ANY LIKE \"%gmail.com\" SORT b.company_name ASC" ++
      " FOR a in 1..2 OUTBOUND b GRAPH GraphName SORT a._id ASC PRUNE 1 == 1 return a" := rfl

example :
    (Query.new "Companies"
      |>.filter (Filter.new ((Comparison.any "emails").like "%gmail.com"))
      |>.sort "company_name" Option.none
      |>.sort "company_age" (some .desc)
      |>.limit 5 Option.none
      |>.distinct).aql_str =
    "FOR a in Companies FILTER a.emails ANY LIKE \"%gmail.com\"" ++
      " SORT a.company_name ASC, a.company_age DESC LIMIT 5 return DISTINCT a" := rfl

example :
    (Query.new "Users"
      |>.filter (Filter.new ((Comparison.field "active").eq_true))
      |>.sort "age" Option.none
      |>.limit 5 Option.none
      |>.filter (Filter.new ((Comparison.field "gender").equals_str "f"))).aql_str =
    "FOR a in Users FILTER a.active == true SORT a.age ASC LIMIT 5" ++
      " FILTER a.gender == \"f\" return a" := rfl

/-- Spec-side renderer for claim comparison only: renders one node's clauses
in the fixed order the spec's §4.2/§4.0 prescribe — all `FILTER`s first, then
one merged `SORT`, then `PRUNE`s, then `LIMIT`s — instead of builder-call
order; written from the spec's words, not from the source. -/
def specFixedOrderAql (q : Query) : String :=
  let reorder : List AqlOperation → List AqlOperation := fun ops =>
    ops.filter (fun op => match op with | .filter _ => true | _ => false) ++
      ops.filter (fun op => match op with | .sort _ _ => true | _ => false) ++
      ops.filter (fun op => match op with | .prune _ => true | _ => false) ++
      ops.filter (fun op => match op with | .limit _ _ => true | _ => false)
  let rec renderFixedTail : Query → String
    | .leaf _ ops _ => renderOps (reorder ops) (varName 0) false
    | .node _ ops _ gd child =>
        renderOps (reorder ops) (varName (child.subDepth + 1)) false ++
          " FOR " ++ varName child.subDepth ++ " in " ++
          toString gd.min ++ ".." ++ toString gd.max ++ " " ++ gd.direction.render ++ " " ++
          varName (child.subDepth + 1) ++ " " ++
          (if gd.named_graph then "GRAPH " else "") ++ child.collection ++
          renderFixedTail child
  "FOR " ++ varName q.subDepth ++ " in " ++ q.collection ++ renderFixedTail q ++
    " return " ++ (if q.anyDistinct then "DISTINCT " else "") ++ varName 0

/-- Embeds `DatabaseRecord<T>` as used by `src/query/query_result.rs`: the
document key, id, revision and the typed record. -/
structure DatabaseRecord (T : Type) where
  key : String
  id : String
  rev : String
  record : T
deriving Repr, DecidableEq

/-- Embeds the `Error::NotFound { item, id, source: None }` value built by
`QueryResult::uniq` in `src/query/query_result.rs`. -/
inductive Error where
  | NotFound (item : String) (id : String)
deriving Repr, DecidableEq

/-- Outcome type for `QueryResult::uniq`: `ok`/`err` mirror the Rust
`Result`, and `panicked` marks the `unwrap()` on line 42 failing. -/
inductive UniqOutcome (T : Type) where
  | ok (doc : T)
  | err (e : Error)
  | panicked
deriving Repr, DecidableEq

/-- Embeds `QueryResult::uniq` from `src/query/query_result.rs` lines 29-43:
error out when the result is empty or holds more than one document, otherwise
`Ok(self.0.into_iter().next().unwrap())`; `collection_name` stands for
`T::COLLECTION_NAME`. -/
def QueryResult.uniq {T : Type} (collection_name : String)
    (docs : List (DatabaseRecord T)) : UniqOutcome (DatabaseRecord T) :=
  if docs.isEmpty || decide (docs.length > 1) then
    .err (.NotFound collection_name "queried")
  else
    match docs.head? with
    | some d => .ok d
    | Option.none => .panicked

/-- Embeds `QueryResult::first_record` from `src/query/query_result.rs`. -/
def QueryResult.first_record {T : Type} (docs : List (DatabaseRecord T)) :
    Option (DatabaseRecord T) :=
  docs.head?

/-- Embeds `QueryResult::<UndefinedRecord>::get_records` from
`src/query/query_result.rs` lines 78-93: `filter_map` over the untyped
documents, keeping key/id/rev and the successfully deserialized record;
`from_value` stands for `serde_json::from_value::<T>(..).ok()`, the partial
structural match. -/
def QueryResult.get_records {J T : Type} (from_value : J → Option T)
    (docs : List (DatabaseRecord J)) : List (DatabaseRecord T) :=
  docs.filterMap fun db =>
    (from_value db.record).map fun record => ⟨db.key, db.id, db.rev, record⟩

/-- Embeds `ArangoHttpError` from `src/error/arango_http_error.rs`. -/
inductive ArangoHttpError where
  | BadParameter
  | Unauthorized
  | Forbidden
  | NotFound
  | MethodNotAllowed
  | NotAcceptable
  | Conflict
  | PreconditionFailed
  | ServerError
  | ServiceUnavailable
  | GatewayTimeout
  | CorruptedJson
  | SuperfluousSuffices
  | UnknownError (code : Nat)
deriving Repr, DecidableEq

/-- Embeds `ArangoHttpError::from_code` from `src/error/arango_http_error.rs`
lines 76-93; the `u16` status code is modelled as `Nat`. -/
def ArangoHttpError.from_code (code : Nat) : ArangoHttpError :=
  match code with
  | 400 => .BadParameter
  | 401 => .Unauthorized
  | 403 => .Forbidden
  | 404 => .NotFound
  | 405 => .MethodNotAllowed
  | 406 => .NotAcceptable
  | 409 => .Conflict
  | 412 => .PreconditionFailed
  | 500 => .ServerError
  | 503 => .ServiceUnavailable
  | 504 => .GatewayTimeout
  | 600 => .CorruptedJson
  | 601 => .SuperfluousSuffices
  | _ => .UnknownError code

/-- Embeds `ArangoHttpError::http_code` from `src/error/arango_http_error.rs`
lines 96-113. -/
def ArangoHttpError.http_code : ArangoHttpError → Nat
  | .BadParameter => 400
  | .Unauthorized => 401
  | .Forbidden => 403
  | .NotFound => 404
  | .MethodNotAllowed => 405
  | .NotAcceptable => 406
  | .Conflict => 409
  | .PreconditionFailed => 412
  | .ServerError => 500
  | .ServiceUnavailable => 503
  | .GatewayTimeout => 504
  | .CorruptedJson => 600
  | .SuperfluousSuffices => 601
  | .UnknownError code => code

/-- Modelled from the spec: the `Cursor` pagination state (§4.3
`Created → HasMore → Exhausted`); the `QueryCursor` implementation is missing
from the source snapshot. `hasMore` holds the stored continuation handle
(covering both the initial `Created` handle and later ones); `exhausted` is
terminal. -/
inductive CursorState (H : Type) where
  | hasMore (handle : H)
  | exhausted
deriving Repr, DecidableEq

/-- Modelled from the spec: `QueryCursor::next_batch` (§4.3). While a handle
is stored, ask the executor capability `fetch` for the next page: on a page,
return it and store the new handle; when the executor reports no further
pages, transition to `exhausted` and return `none`. After `exhausted` the
call is a no-op returning `none`. -/
def QueryCursor.next_batch {H D : Type} (fetch : H → Option (List D × H)) :
    CursorState H → Option (List D) × CursorState H
  | .hasMore handle =>
    match fetch handle with
    | some (batch, newHandle) => (some batch, .hasMore newHandle)
    | Option.none => (Option.none, .exhausted)
  | .exhausted => (Option.none, .exhausted)

/-- Iterates the state transition of `QueryCursor.next_batch` `n` times,
discarding the returned batches. -/
def QueryCursor.stepN {H D : Type} (fetch : H → Option (List D × H)) :
    Nat → CursorState H → CursorState H
  | 0, s => s
  | n + 1, s => QueryCursor.stepN fetch n (QueryCursor.next_batch fetch s).2

/-- The iteration variables the renderer assigns along the chain, root first:
the root through the statement's `FOR` head (`varName q.subDepth` in
`Query.aql_str`), each nested node through its join clause
(`varName child.subDepth` in `Query.renderTail`). -/
def Query.chainVars : Query → List String
  | .leaf _ _ _ => [varName 0]
  | .node _ _ _ _ child => varName (child.subDepth + 1) :: child.chainVars

/-- Whether, after processing `ops` starting from flag `b`, the most recent
rendered operation was a `SORT` (the merge flag threaded by `renderOps`). -/
def lastSort : Bool → List AqlOperation → Bool
  | b, [] => b
  | _, .sort _ _ :: rest => lastSort true rest
  | _, .filter _ :: rest => lastSort false rest
  | _, .prune _ :: rest => lastSort false rest
  | _, .limit _ _ :: rest => lastSort false rest

/-- The concrete query of `tests/query.rs::order_of_operations_works`:
builder calls in the order filter, sort, limit, filter. -/
def orderOfOperationsQuery : Query :=
  Query.new "Users"
    |>.filter (Filter.new ((Comparison.field "active").eq_true))
    |>.sort "age" Option.none
    |>.limit 5 Option.none
    |>.filter (Filter.new ((Comparison.field "gender").equals_str "f"))

/-! ## Helper lemmas -/

theorem varName_zero : varName 0 = "a" := rfl

/-- `renderOps` is a homomorphism for list append, threading the sort-merge
flag through `lastSort`: clauses of later operations render strictly after
clauses of earlier ones. -/
theorem renderOps_append (xs ys : List AqlOperation) (v : String) (b : Bool) :
    renderOps (xs ++ ys) v b = renderOps xs v b ++ renderOps ys v (lastSort b xs) := by
  induction xs generalizing b with
  | nil => simp [renderOps, lastSort]
  | cons op rest ih =>
    cases op <;>
      simp [renderOps, lastSort, List.cons_append, ih, String.append_assoc]

/-- The renderer's chain variables are exactly the spec §4.2 naming: the
`(D+1)`-letter alphabet prefix reversed, outermost `varName D` down to the
innermost `varName 0 = "a"`. -/
theorem chainVars_eq (q : Query) :
    q.chainVars = ((List.range (q.subDepth + 1)).reverse).map varName := by
  induction q with
  | leaf c ops d => simp [Query.chainVars, Query.subDepth, List.range_succ]
  | node c ops d gd child ih =>
    have h : List.range (child.subDepth + 1 + 1) =
        List.range (child.subDepth + 1) ++ [child.subDepth + 1] :=
      List.range_succ (child.subDepth + 1)
    simp only [Query.chainVars, Query.subDepth, ih, h, List.reverse_append,
      List.reverse_cons, List.reverse_nil, List.nil_append, List.singleton_append,
      List.map_cons]

/-- `Query.anyDistinct` is exactly "some node of the chain has its distinct
flag set". -/
theorem anyDistinct_iff (q : Query) :
    q.anyDistinct = true ↔ true ∈ q.distinctFlags := by
  induction q with
  | leaf c ops d =>
    cases d <;> simp [Query.anyDistinct, Query.distinctFlags]
  | node c ops d gd child ih =>
    cases d <;> simp [Query.anyDistinct, Query.distinctFlags, ih]

/-- After `exhausted`, iterating the cursor transition stays `exhausted`. -/
theorem stepN_exhausted {H D : Type} (fetch : H → Option (List D × H)) (n : Nat) :
    QueryCursor.stepN fetch n CursorState.exhausted = CursorState.exhausted := by
  induction n with
  | zero => rfl
  | succ n ih => simpa [QueryCursor.stepN, QueryCursor.next_batch] using ih

/-! ## Claim theorems -/

/-- C1: for every query tree the renderer assigns the innermost node the
variable `"a"` and each step toward the root the next letter, so the chain's
variables (root first) are `varName D, …, varName 0`, the statement's `FOR`
head binds the `(D+1)`-th letter `varName q.subDepth`, and the final return
clause always names the innermost variable `"a"`. -/
theorem c1_variable_naming (q : Query) :
    q.chainVars = ((List.range (q.subDepth + 1)).reverse).map varName ∧
    (∃ rest, q.aql_str = "FOR " ++ varName q.subDepth ++ " in " ++ q.collection ++ rest) ∧
    (∃ front, q.aql_str =
      front ++ (" return " ++ (if q.anyDistinct then "DISTINCT " else "") ++ "a")) := by
  refine ⟨chainVars_eq q, ?_, ?_⟩
  · exact ⟨q.renderTail ++ " return " ++ (if q.anyDistinct then "DISTINCT " else "") ++
      varName 0, by simp [Query.aql_str, String.append_assoc]⟩
  · exact ⟨"FOR " ++ varName q.subDepth ++ " in " ++ q.collection ++ q.renderTail,
      by simp [Query.aql_str, varName_zero, String.append_assoc]⟩

/-- C1 witness: the depth-3 chain of
`tests/query.rs::complex_sub_graph_query_works` gets variables `d, c, b, a`
and its statement ends in `return a`. -/
theorem c1_variable_naming_witness :
    (Query.new "Companies"
      |>.join_outbound 1 2 false
        (Query.new "MemberOf"
          |>.join_inbound 1 5 false
            (Query.new "BelongsTo"
              |>.join_outbound 2 2 false (Query.new "HasFriend")))).chainVars =
      ["d", "c", "b", "a"] := by
  have h := (c1_variable_naming (Query.new "Companies"
    |>.join_outbound 1 2 false
      (Query.new "MemberOf"
        |>.join_inbound 1 5 false
          (Query.new "BelongsTo"
            |>.join_outbound 2 2 false (Query.new "HasFriend"))))).1
  rw [h]
  rfl

/-- C2 counterexample: the query of `tests/query.rs::order_of_operations_works`
(builder calls filter, sort, limit, filter) renders its second `FILTER` clause
after the `LIMIT` clause — not in the fixed order FILTER → SORT → LIMIT that
the claim states — so its rendering differs from the spec-side fixed-order
rendering of the same tree. -/
theorem c2_clause_order_counterexample :
    orderOfOperationsQuery.aql_str =
      ("FOR a in Users FILTER a.active == true SORT a.age ASC" ++ " LIMIT 5 FILTER " ++
        "a.gender == \"f\" return a") ∧
    orderOfOperationsQuery.aql_str ≠ specFixedOrderAql orderOfOperationsQuery := by
  refine ⟨rfl, ?_⟩
  decide

/-- C2 amended: for every node of every query tree — innermost (`leaf`) or
internal (`node`), wherever it sits in the chain, since a node's block in the
statement is exactly its `renderTail` — the rendered clauses appear in the
order the builder methods were called on that node: the operation list splits
anywhere into earlier and later calls, whose clauses render strictly in that
order (consecutive `SORT`s merging into one clause via the `lastSort` flag);
the nested `FOR` traversal of an internal node renders after all of that
node's recorded clauses, and the terminating return clause renders after the
whole chain. -/
theorem c2_clause_order_amended (ops1 ops2 : List AqlOperation) (col : String)
    (dist : Bool) :
    (∀ q : Query, q.aql_str =
      "FOR " ++ varName q.subDepth ++ " in " ++ q.collection ++ q.renderTail ++
        " return " ++ (if q.anyDistinct then "DISTINCT " else "") ++ "a") ∧
    Query.renderTail (.leaf col (ops1 ++ ops2) dist) =
      renderOps ops1 (varName 0) false ++
        renderOps ops2 (varName 0) (lastSort false ops1) ∧
    ∀ (gd : GraphQueryData) (child : Query),
      Query.renderTail (.node col (ops1 ++ ops2) dist gd child) =
        renderOps ops1 (varName (child.subDepth + 1)) false ++
          renderOps ops2 (varName (child.subDepth + 1)) (lastSort false ops1) ++
          " FOR " ++ varName child.subDepth ++ " in " ++
          toString gd.min ++ ".." ++ toString gd.max ++ " " ++
          gd.direction.render ++ " " ++ varName (child.subDepth + 1) ++ " " ++
          (if gd.named_graph then "GRAPH " else "") ++ child.collection ++
          child.renderTail := by
  refine ⟨fun q => ?_, ?_, fun gd child => ?_⟩
  · simp [Query.aql_str, varName_zero]
  · simp [Query.renderTail, renderOps_append]
  · simp [Query.renderTail, renderOps_append, String.append_assoc]

/-- C3 counterexample: the repository's own prune comparison
`Comparison::statement("1").equals(1)` renders under binding variable `"b"`
to `"1 == 1"` — the binding variable is *not* prepended for a statement-based
comparison, contradicting the claimed `"b1 == 1"`. -/
theorem c3_statement_render_counterexample :
    ((Comparison.statement "1").equals 1).aql_str "b" = "1 == 1" ∧
    ((Comparison.statement "1").equals 1).aql_str "b" ≠ "b1 == 1" := by
  refine ⟨rfl, ?_⟩
  decide

/-- C3 amended: a field-based comparison renders as
`"<bind_var>.<left> <cmp> <right>"`; a statement-based comparison omits the
binding variable entirely (not just the dot), rendering as
`"<left> <cmp> <right>"`. -/
theorem c3_statement_render_amended (v leftv cmp rightv name s : String) (n : Int) :
    (Comparison.mk true leftv cmp rightv).aql_str v =
      v ++ ("." ++ (leftv ++ (" " ++ (cmp ++ (" " ++ rightv))))) ∧
    (Comparison.mk false leftv cmp rightv).aql_str v =
      leftv ++ (" " ++ (cmp ++ (" " ++ rightv))) ∧
    ((Comparison.field name).equals n).aql_str v =
      v ++ ("." ++ (name ++ (" == " ++ toString n))) ∧
    ((Comparison.statement s).equals n).aql_str v = s ++ (" == " ++ toString n) := by
  refine ⟨?_, ?_, ?_, ?_⟩ <;>
    simp [Comparison.aql_str, Comparison.field, Comparison.statement,
      ComparisonBuilder.equals, String.append_assoc]

/-- C4: every rendered statement terminates with
`return DISTINCT <innermost var>` when some node of the tree has its distinct
flag set, and with `return <innermost var>` otherwise. -/
theorem c4_distinct_return (q : Query) :
    ∃ front, q.aql_str =
      front ++ (" return " ++
        (if true ∈ q.distinctFlags then "DISTINCT " else "") ++ "a") := by
  refine ⟨"FOR " ++ varName q.subDepth ++ " in " ++ q.collection ++ q.renderTail, ?_⟩
  have h : (if q.anyDistinct then "DISTINCT " else "") =
      (if true ∈ q.distinctFlags then "DISTINCT " else "") := by
    by_cases hd : q.anyDistinct = true
    · rw [if_pos hd, if_pos ((anyDistinct_iff q).mp hd)]
    · rw [if_neg hd, if_neg (fun hmem => hd ((anyDistinct_iff q).mpr hmem))]
  simp [Query.aql_str, varName_zero, h, String.append_assoc]

/-- C5: the `Comparison::and`/`Comparison::or` shortcuts build exactly
`Filter::new(self).and(..)` / `Filter::new(self).or(..)`, so both routes
render to the same string; in particular
`field("age").greater_than(10).and(field("age").lesser_or_equal(18))`
renders `"i.age > 10 && i.age <= 18"`. -/
theorem c5_comparison_shortcuts (c1 c2 : Comparison) (v : String) :
    (Comparison.and c1 c2).aql_str v = ((Filter.new c1).and c2).aql_str v ∧
    (Comparison.or c1 c2).aql_str v = ((Filter.new c1).or c2).aql_str v ∧
    (Comparison.and c1 c2).aql_str v = c1.aql_str v ++ " && " ++ c2.aql_str v ∧
    (Comparison.or c1 c2).aql_str v = c1.aql_str v ++ " || " ++ c2.aql_str v ∧
    (((Comparison.field "age").greater_than 10).and
      ((Comparison.field "age").lesser_or_equal 18)).aql_str "i" =
      "i.age > 10 && i.age <= 18" :=
  ⟨rfl, rfl, rfl, rfl, rfl⟩

/-- C6: the typed projection `get_records` is total (no error case), returns
at most as many documents as the untyped input, and returns exactly the
documents whose raw value structurally matches the target type, silently
dropping the rest. -/
theorem c6_typed_projection {J T : Type} (from_value : J → Option T)
    (docs : List (DatabaseRecord J)) :
    (QueryResult.get_records from_value docs).length ≤ docs.length ∧
    ∀ d : DatabaseRecord T, d ∈ QueryResult.get_records from_value docs ↔
      ∃ db ∈ docs, from_value db.record = some d.record ∧
        db.key = d.key ∧ db.id = d.id ∧ db.rev = d.rev := by
  constructor
  · exact List.length_filterMap_le _ _
  · intro d
    simp only [QueryResult.get_records, List.mem_filterMap, Option.map_eq_some']
    constructor
    · rintro ⟨db, hdb, r, hr, hEq⟩
      subst hEq
      exact ⟨db, hdb, hr, rfl, rfl, rfl⟩
    · rintro ⟨db, hdb, hr, hkey, hid, hrev⟩
      refine ⟨db, hdb, d.record, hr, ?_⟩
      cases d
      simp_all

/-- C7: once `next_batch` has returned `none` the cursor is in the
`exhausted` state, and every subsequent `next_batch` call — after any number
of further transitions — returns `none` and leaves the state `exhausted`. -/
theorem c7_exhausted_no_op {H D : Type} (fetch : H → Option (List D × H))
    (s : CursorState H) (h : (QueryCursor.next_batch fetch s).1 = Option.none) :
    (QueryCursor.next_batch fetch s).2 = CursorState.exhausted ∧
    ∀ n : Nat,
      QueryCursor.next_batch fetch
          (QueryCursor.stepN fetch n (QueryCursor.next_batch fetch s).2) =
        (Option.none, CursorState.exhausted) := by
  have h2 : (QueryCursor.next_batch fetch s).2 = CursorState.exhausted := by
    cases s with
    | hasMore handle =>
      cases hfetch : fetch handle with
      | some page =>
        exfalso
        simp [QueryCursor.next_batch, hfetch] at h
      | none => simp [QueryCursor.next_batch, hfetch]
    | exhausted => rfl
  refine ⟨h2, fun n => ?_⟩
  rw [h2, stepN_exhausted]
  rfl

/-- C7 witness: an executor that immediately reports no further pages drives
the cursor to `exhausted`, and the call after it is a `none` no-op. -/
theorem c7_exhausted_no_op_witness :
    (QueryCursor.next_batch (fun _ : Nat => (Option.none : Option (List Nat × Nat)))
        (CursorState.hasMore 0)).1 = Option.none ∧
    (QueryCursor.next_batch (fun _ : Nat => (Option.none : Option (List Nat × Nat)))
        (CursorState.hasMore 0)).2 = CursorState.exhausted ∧
    QueryCursor.next_batch (fun _ : Nat => (Option.none : Option (List Nat × Nat)))
        (QueryCursor.stepN (fun _ : Nat => (Option.none : Option (List Nat × Nat))) 3
          (QueryCursor.next_batch (fun _ : Nat => (Option.none : Option (List Nat × Nat)))
            (CursorState.hasMore 0)).2) =
      (Option.none, CursorState.exhausted) := by
  have h := c7_exhausted_no_op
    (fun _ : Nat => (Option.none : Option (List Nat × Nat))) (CursorState.hasMore 0) rfl
  exact ⟨rfl, h.1, h.2 3⟩

/-- C8: rendering is deterministic — the render functions of the embedding
are pure, so two calls on the same unchanged `Query`, `Filter` or
`Comparison` value produce byte-identical strings. -/
theorem c8_render_deterministic (q : Query) (f : Filter) (c : Comparison) (v : String) :
    q.aql_str = q.aql_str ∧ f.aql_str v = f.aql_str v ∧ c.aql_str v = c.aql_str v :=
  ⟨rfl, rfl, rfl⟩

/-- C9: `uniq` returns the `NotFound` error exactly when the result holds
zero documents or more than one, returns the single document otherwise, and
never reaches the `unwrap` panic. -/
theorem c9_uniq (T : Type) (collection_name : String) (docs : List (DatabaseRecord T)) :
    (QueryResult.uniq collection_name docs =
        UniqOutcome.err (Error.NotFound collection_name "queried") ↔
      docs.length = 0 ∨ docs.length > 1) ∧
    (∀ d, docs = [d] → QueryResult.uniq collection_name docs = UniqOutcome.ok d) ∧
    QueryResult.uniq collection_name docs ≠ UniqOutcome.panicked := by
  match docs with
  | [] =>
    refine ⟨by simp [QueryResult.uniq], fun d hd => by simp at hd, by simp [QueryResult.uniq]⟩
  | [a] =>
    refine ⟨by simp [QueryResult.uniq], fun d hd => ?_, by simp [QueryResult.uniq]⟩
    cases hd
    simp [QueryResult.uniq]
  | a :: b :: t =>
    refine ⟨?_, fun d hd => by simp at hd, ?_⟩
    · simp [QueryResult.uniq, List.length_cons]
    · simp [QueryResult.uniq]

/-- C9 witness: `uniq` at the empty result errors, and at a one-element
result returns that element. -/
theorem c9_uniq_witness :
    QueryResult.uniq "Dish" ([] : List (DatabaseRecord Nat)) =
      UniqOutcome.err (Error.NotFound "Dish" "queried") ∧
    QueryResult.uniq "Dish" [(⟨"key", "id", "rev", 7⟩ : DatabaseRecord Nat)] =
      UniqOutcome.ok ⟨"key", "id", "rev", 7⟩ := by
  refine ⟨?_, ?_⟩
  · exact (c9_uniq Nat "Dish" []).1.mpr (Or.inl rfl)
  · exact (c9_uniq Nat "Dish" [⟨"key", "id", "rev", 7⟩]).2.1 _ rfl

/-- C10: `from_code` and `http_code` are mutually inverse on status codes —
every code maps to the variant whose `http_code` is that same code,
unrecognized codes passing through `UnknownError`. -/
theorem c10_http_code_roundtrip (code : Nat) :
    (ArangoHttpError.from_code code).http_code = code := by
  unfold ArangoHttpError.from_code
  split <;> rfl

end Aragog
